import Mathlib

/-
Verification of the Q-learning navigation core of
src/hospital_robot_navigation.ino (the reinforcement-learning sketch).
Machine integers are modelled as Nat / Int with explicit wrapping or
clamping where the source performs it; C integer division on signed
operands is Int.tdiv (truncation toward zero), and on unsigned operands
it is Nat division.
-/

namespace HospitalRobot

/-- NUM_LINE_STATES from the source: 8 line states. -/
def NUM_LINE_STATES : Nat := 8

/-- NUM_SEGMENTS from the source: 10 route segments. -/
def NUM_SEGMENTS : Nat := 10

/-- NUM_ACTIONS from the source: 5 actions. -/
def NUM_ACTIONS : Nat := 5

/-- Learning rate alpha = 38 (0.15 * 255), a uint8_t global never reassigned. -/
def alpha : Int := 38

/-- Discount gamma_d = 242 (0.95 * 255), a uint8_t global never reassigned. -/
def gamma_d : Int := 242

/-- EPS_MIN = 13 (0.05 * 255). -/
def EPS_MIN : Nat := 13

/-- EPS_DECAY = 253 (0.995 * 255). -/
def EPS_DECAY : Nat := 253

/-- SEG_DIST: cumulative encoder-tick thresholds for the 10 segments. -/
def SEG_DIST : List Nat := [0, 600, 1400, 2200, 3000, 3600, 4400, 5200, 6000, 6800]

/-- TASK_LOCS: the 5 waypoint segments (NURSE=5, PT1=2, PT2=3, PHARM=7, RAD=8). -/
def TASK_LOCS : List Nat := [5, 2, 3, 7, 8]

/--
readSensors, classification part. `bits` is the 5-bit sensor mask built by
`bits |= (1 << (4 - i))` for each sensor above threshold; `elapsed` is
`millis() - startTime`; `crossings` is the global crossing counter.
Returns the new (curLineState, crossings) pair, mirroring the if/else
chain of the source, including the `bits == 0b11111` branch placed after
the `bits & 0b00100` test.
-/
def readSensorsStep (bits elapsed crossings : Nat) : Nat × Nat :=
  if bits = 0 then (0, crossings)
  else if bits &&& 4 ≠ 0 then (4, crossings)
  else if bits &&& 8 ≠ 0 then (3, crossings)
  else if bits &&& 2 ≠ 0 then (5, crossings)
  else if bits &&& 16 ≠ 0 then (2, crossings)
  else if bits &&& 1 ≠ 0 then (6, crossings)
  else if bits = 31 then (4, if elapsed > 2000 then crossings + 1 else crossings)
  else (4, crossings)

/--
updatePosition, segment-selection part: scan SEG_DIST from index 9 down
and take the first (largest) index whose threshold does not exceed the
cumulative distance.  SEG_DIST[0] = 0, so some index always matches.
-/
def segmentOfDist (d : Nat) : Nat :=
  if d ≥ 6800 then 9
  else if d ≥ 6000 then 8
  else if d ≥ 5200 then 7
  else if d ≥ 4400 then 6
  else if d ≥ 3600 then 5
  else if d ≥ 3000 then 4
  else if d ≥ 2200 then 3
  else if d ≥ 1400 then 2
  else if d ≥ 600 then 1
  else 0

/-- encodeState from the source: curSegment * NUM_LINE_STATES + curLineState. -/
def encodeState (seg ls : Nat) : Nat := seg * NUM_LINE_STATES + ls

/-- Saturation of the int16_t intermediate into the int8_t Q cell (updateQ). -/
def clamp8 (x : Int) : Int := if x > 127 then 127 else if x < -128 then -128 else x

/-- One iteration of the strict-greater max scan used in updateQ and selectAction. -/
def maxStep (x m : Int) : Int := if x > m then x else m

/-- updateQ's maxNext loop: max over Q[s2][0..4] starting from -128. -/
def maxNextQ (Q : Nat → Nat → Int) (s2 : Nat) : Int :=
  maxStep (Q s2 4) (maxStep (Q s2 3) (maxStep (Q s2 2) (maxStep (Q s2 1) (maxStep (Q s2 0) (-128)))))

/-- updateQ's target: r + (int16_t)gamma_d * maxNext / 255, C signed division. -/
def qTarget (r maxNext : Int) : Int := r + Int.tdiv (gamma_d * maxNext) 255

/--
updateQ from the source: the learning update for cell (s, a) with reward r
and next state s2.  All int16_t intermediates stay within int16_t range
whenever the table holds int8_t values and r is an int8_t, so unbounded
Int models them exactly; the final value is clamped into [-128, 127]
before the int8_t store.
-/
def updateQ (Q : Nat → Nat → Int) (s a : Nat) (r : Int) (s2 : Nat) : Nat → Nat → Int :=
  let maxNext := maxNextQ Q s2
  let target := qTarget r maxNext
  let delta := target - Q s a
  let upd := Int.tdiv (alpha * delta) 255
  let newQ := clamp8 (Q s a + upd)
  fun i j => if i = s ∧ j = a then newQ else Q i j

/-- One iteration of the exploitation scan in selectAction, on the (bestVal, bestAct) pair. -/
def scanStep (row : Nat → Int) (a : Nat) (p : Int × Nat) : Int × Nat :=
  if row a > p.1 then (row a, a) else p

/--
selectAction, exploitation path: linear scan over actions 0..4 starting
from bestVal = -128, bestAct = 2, updating on strictly greater values.
-/
def selectScan (row : Nat → Int) : Nat :=
  (scanStep row 4 (scanStep row 3 (scanStep row 2 (scanStep row 1 (scanStep row 0 ((-128 : Int), 2)))))).2

/--
The property the specification asserts of the exploitation path: the
returned action attains the numerically greatest row value and is the
first (lowest) index among the tied maxima.
-/
def firstArgmax (row : Nat → Int) (a : Nat) : Prop :=
  a < NUM_ACTIONS ∧ (∀ b, b < NUM_ACTIONS → row b ≤ row a) ∧ (∀ b, b < a → row b < row a)

/-- Episode-scoped waypoint state mutated by checkWaypoints. -/
structure EpState where
  taskFlags : Nat
  tasksComplete : Nat
  episodeReward : Int
deriving DecidableEq

/-- One iteration of the checkWaypoints loop for task index i at segment seg. -/
def waypointStep (seg i : Nat) (st : EpState) : EpState :=
  let loc := TASK_LOCS.getD i 0
  if seg = loc ∧ st.taskFlags &&& (1 <<< i) = 0 then
    { taskFlags := st.taskFlags ||| (1 <<< i),
      tasksComplete := st.tasksComplete + 1,
      episodeReward := st.episodeReward + 30 }
  else st

/-- checkWaypoints from the source: the 5-iteration loop over task indices. -/
def checkWaypoints (seg : Nat) (st : EpState) : EpState :=
  waypointStep seg 4 (waypointStep seg 3 (waypointStep seg 2 (waypointStep seg 1 (waypointStep seg 0 st))))

/-- endEpisode's epsilon decay: epsilon = (uint16_t)epsilon * EPS_DECAY / 255, floored at EPS_MIN. -/
def decayEpsilon (eps : Nat) : Nat :=
  let e := eps * EPS_DECAY / 255
  if e < EPS_MIN then EPS_MIN else e

/-- Termination reasons reported by checkEnd, in source order. -/
inductive EndReason where
  | timeout
  | complete
  | lost
deriving DecidableEq

/--
checkEnd from the source: the three predicates in source order; `elapsed`
is `millis() - startTime`, `lostCount` the function-local static counter.
Returns the reported reason (none when the episode continues) together
with the updated lostCount.
-/
def checkEnd (elapsed tasks seg ls lostCount : Nat) : Option EndReason × Nat :=
  if elapsed > 45000 then (some EndReason.timeout, lostCount)
  else if tasks ≥ 5 ∧ seg ≥ 9 then (some EndReason.complete, lostCount)
  else if ls = 0 then
    let lc := lostCount + 1
    if lc > 100 then (some EndReason.lost, lc) else (none, lc)
  else (none, 0)

/--
Per-tick driver for episode-end scenarios: each tick (20 ms apart) runs
checkWaypoints then checkEnd on the next line state of the stream, with
the segment held fixed, stopping at the first tick checkEnd fires.
-/
def runTicks2 : List Nat → Nat → Nat → EpState → Nat → Option EndReason × EpState
  | [], _, _, st, _ => (none, st)
  | ls :: rest, tick, seg, st, lostCount =>
    let st2 := checkWaypoints seg st
    let r := checkEnd (tick * 20) st2.tasksComplete seg ls lostCount
    match r.1 with
    | some reason => (some reason, st2)
    | none => runTicks2 rest (tick + 1) seg st2 r.2

/-- Process-wide mutable state of the sketch (the globals plus checkEnd's static lostCount). -/
structure GState where
  Q : Nat → Nat → Int
  epsilon : Nat
  episode : Nat
  episodeReward : Int
  totalDist : Nat
  curSegment : Nat
  tasksComplete : Nat
  taskFlags : Nat
  crossings : Nat
  centered : Nat
  readings : Nat
  bestReward : Int
  running : Bool
  startTime : Nat
  lostCount : Nat

/--
startEpisode from the source: increments the uint8_t episode counter
(mod 256), zeroes the episode-scoped fields, records the start time and
sets running; it touches nothing else.
-/
def startEpisode (now : Nat) (g : GState) : GState :=
  { g with
    episode := (g.episode + 1) % 256,
    episodeReward := 0,
    totalDist := 0,
    curSegment := 0,
    tasksComplete := 0,
    taskFlags := 0,
    crossings := 0,
    centered := 0,
    readings := 0,
    startTime := now,
    running := true }

/-- Concrete state used to instantiate theorems with hypotheses. -/
def gState0 : GState :=
  { Q := fun _ _ => 0, epsilon := 77, episode := 0, episodeReward := 0,
    totalDist := 0, curSegment := 0, tasksComplete := 0, taskFlags := 0,
    crossings := 0, centered := 0, readings := 0, bestReward := -1000,
    running := false, startTime := 0, lostCount := 50 }

/-- At segment 0 no waypoint matches (0 is not a task location), so checkWaypoints is the identity. -/
theorem checkWaypoints_seg_zero (st : EpState) : checkWaypoints 0 st = st := by
  simp [checkWaypoints, waypointStep, TASK_LOCS]

/-- C5: updateQ with alpha = 38, gamma = 242, reward = 7, Q[s][a] = 0 and all
next-state entries 0 computes maxNext = 0, target = 7, update = 38 * 7 / 255 = 1
by truncating division, and stores new Q[s][a] = 1. -/
theorem C5_updateQ_concrete :
    maxNextQ (fun _ _ => 0) 1 = 0 ∧
    qTarget 7 0 = 7 ∧
    Int.tdiv (alpha * 7) 255 = 1 ∧
    updateQ (fun _ _ => 0) 0 0 7 1 0 0 = 1 := by
  decide

/-- C2: in readSensors the crossing branch is unreachable: a mask of all ones
has the center bit set, so the center test matches first; hence for every
input the crossings counter is unchanged, and at bits = 0b11111 with
elapsed = 3000 ms the result is state CENTER with crossings still 0. -/
theorem C2_crossing_branch_dead :
    (∀ bits elapsed c, (readSensorsStep bits elapsed c).2 = c) ∧
    readSensorsStep 31 3000 0 = (4, 0) := by
  constructor
  · intro bits elapsed c
    simp only [readSensorsStep]
    split_ifs with h1 h2 h3 h4 h5 h6 h7 <;> try rfl
    subst h7
    simp at h2
  · decide

/-- C8: startEpisode zeroes tasksComplete, taskFlags, crossings, centered,
readings, curSegment, episodeReward and totalDist, and leaves the Q table
and bestReward unchanged. -/
theorem C8_startEpisode_frame (g : GState) (now : Nat) :
    (startEpisode now g).tasksComplete = 0 ∧
    (startEpisode now g).taskFlags = 0 ∧
    (startEpisode now g).crossings = 0 ∧
    (startEpisode now g).centered = 0 ∧
    (startEpisode now g).readings = 0 ∧
    (startEpisode now g).curSegment = 0 ∧
    (startEpisode now g).episodeReward = 0 ∧
    (startEpisode now g).totalDist = 0 ∧
    (startEpisode now g).Q = g.Q ∧
    (startEpisode now g).bestReward = g.bestReward := by
  simp [startEpisode]

/-- C1: updateQ stores a value saturated into [-128, 127]: whenever the table
holds int8_t-range values (and the reward is an int8_t), every entry after the
call is again in [-128, 127], and the written cell is exactly the clamp of the
computed int16_t value. -/
theorem C1_updateQ_saturates (Q : Nat → Nat → Int) (s a : Nat) (r : Int) (s2 : Nat)
    (hQ : ∀ i j, -128 ≤ Q i j ∧ Q i j ≤ 127) (_hr : -128 ≤ r ∧ r ≤ 127) (i j : Nat) :
    (-128 ≤ updateQ Q s a r s2 i j ∧ updateQ Q s a r s2 i j ≤ 127) ∧
    updateQ Q s a r s2 s a =
      clamp8 (Q s a + Int.tdiv (alpha * (qTarget r (maxNextQ Q s2) - Q s a)) 255) := by
  constructor
  · simp only [updateQ]
    by_cases h : i = s ∧ j = a
    · simp only [h, and_self, if_true, clamp8]
      split_ifs <;> omega
    · simp only [h, if_false]
      exact hQ i j
  · simp [updateQ]

/-- Witness for C1 at the all-zero table, s = a = 0, r = 7, s2 = 1, cell (3, 2). -/
theorem C1_updateQ_saturates_witness :
    ((-128 ≤ updateQ (fun _ _ => 0) 0 0 7 1 3 2 ∧ updateQ (fun _ _ => 0) 0 0 7 1 3 2 ≤ 127) ∧
      updateQ (fun _ _ => 0) 0 0 7 1 0 0 =
        clamp8 ((fun (_ _ : Nat) => (0 : Int)) 0 0 +
          Int.tdiv (alpha * (qTarget 7 (maxNextQ (fun _ _ => 0) 1) -
            (fun (_ _ : Nat) => (0 : Int)) 0 0)) 255)) :=
  C1_updateQ_saturates (fun _ _ => 0) 0 0 7 1
    (fun _ _ => ⟨by norm_num, by norm_num⟩) ⟨by norm_num, by norm_num⟩ 3 2

/-- C3: the state encoding seg * 8 + ls is injective over seg ≤ 9, ls ≤ 7, and
for every cumulative distance and every sensor mask the encoded state built
from updatePosition's segment and readSensors' line state is at most 79. -/
theorem C3_encodeState_injective_inbounds :
    (∀ s1 l1 s2 l2, s1 ≤ 9 → l1 ≤ 7 → s2 ≤ 9 → l2 ≤ 7 →
      encodeState s1 l1 = encodeState s2 l2 → s1 = s2 ∧ l1 = l2) ∧
    (∀ d bits elapsed c,
      encodeState (segmentOfDist d) ((readSensorsStep bits elapsed c).1) ≤ 79) := by
  constructor
  · intro s1 l1 s2 l2 hs1 hl1 hs2 hl2 h
    simp only [encodeState, NUM_LINE_STATES] at h
    omega
  · intro d bits elapsed c
    have hseg : segmentOfDist d ≤ 9 := by
      simp only [segmentOfDist]
      split_ifs <;> omega
    have hls : (readSensorsStep bits elapsed c).1 ≤ 7 := by
      simp only [readSensorsStep]
      split_ifs <;> simp
    simp only [encodeState, NUM_LINE_STATES]
    omega

/-- Witness for C3: injectivity applied at (1, 2) = (1, 2), and the bound at
distance 700 with a center-bit mask. -/
theorem C3_encodeState_injective_inbounds_witness :
    ((1 : Nat) = 1 ∧ (2 : Nat) = 2) ∧
    encodeState (segmentOfDist 700) ((readSensorsStep 4 0 0).1) ≤ 79 :=
  ⟨C3_encodeState_injective_inbounds.1 1 2 1 2 (by norm_num) (by norm_num)
      (by norm_num) (by norm_num) rfl,
    C3_encodeState_injective_inbounds.2 700 4 0 0⟩

/-- C6: one application of the epsilon decay, for epsilon in [EPS_MIN, 255],
yields a value at least EPS_MIN and at most the previous epsilon. -/
theorem C6_epsilon_decay_bounds (eps : Nat) (h1 : EPS_MIN ≤ eps) (h2 : eps ≤ 255) :
    EPS_MIN ≤ decayEpsilon eps ∧ decayEpsilon eps ≤ eps := by
  have hle : eps * EPS_DECAY / 255 ≤ eps := by
    simp only [EPS_DECAY]
    omega
  simp only [decayEpsilon, EPS_MIN] at *
  split_ifs <;> omega

/-- Witness for C6 at the initial epsilon 77. -/
theorem C6_epsilon_decay_bounds_witness :
    EPS_MIN ≤ decayEpsilon 77 ∧ decayEpsilon 77 ≤ 77 :=
  C6_epsilon_decay_bounds 77 (by decide) (by decide)

/-- C7: checkWaypoints at task i's segment is the identity when bit i is
already set, and on the first visit it sets bit i, increments tasksComplete
and adds the one-time +30 bonus. -/
theorem C7_checkWaypoints_idempotent (st : EpState) (i : Nat) (hi : i < 5) :
    (st.taskFlags &&& (1 <<< i) ≠ 0 → checkWaypoints (TASK_LOCS.getD i 0) st = st) ∧
    (st.taskFlags &&& (1 <<< i) = 0 → checkWaypoints (TASK_LOCS.getD i 0) st =
      ⟨st.taskFlags ||| (1 <<< i), st.tasksComplete + 1, st.episodeReward + 30⟩) := by
  interval_cases i <;> constructor <;> intro h <;>
    simp_all [checkWaypoints, waypointStep, TASK_LOCS]

/-- Witness for C7 at task 0 (segment 5): flags = 1 is left unchanged, and
flags = 0 gains bit 0, one task and the +30 bonus. -/
theorem C7_checkWaypoints_idempotent_witness :
    checkWaypoints (TASK_LOCS.getD 0 0) ⟨1, 1, 30⟩ = ⟨1, 1, 30⟩ ∧
    checkWaypoints (TASK_LOCS.getD 0 0) ⟨0, 0, 0⟩ = ⟨0 ||| (1 <<< 0), 0 + 1, 0 + 30⟩ :=
  ⟨(C7_checkWaypoints_idempotent ⟨1, 1, 30⟩ 0 (by norm_num)).1 (by decide),
    (C7_checkWaypoints_idempotent ⟨0, 0, 0⟩ 0 (by norm_num)).2 (by decide)⟩

/-- C4 counterexample: on the row with every entry -128 the greatest value is
attained first at action 0, but the exploitation scan returns its initial
default bestAct = 2 (the strict comparison never fires against the initial
bestVal = -128), so the scan result is not the first argmax. -/
theorem C4_counterexample_all_minus128 :
    selectScan (fun _ => (-128 : Int)) = 2 ∧
    ¬ firstArgmax (fun _ => (-128 : Int)) (selectScan (fun _ => (-128 : Int))) := by
  constructor
  · decide
  · intro hfa
    have h2 : selectScan (fun _ => (-128 : Int)) = 2 := by decide
    rw [h2] at hfa
    have := hfa.2.2 0 (by norm_num)
    simp at this

/-- Loop invariant of the exploitation scan after processing actions below k:
either no entry exceeded the initial bestVal = -128 and the accumulator still
holds the defaults, or the accumulator holds the first argmax of the prefix. -/
def scanInv (row : Nat → Int) (k : Nat) (p : Int × Nat) : Prop :=
  (p.1 = -128 ∧ p.2 = 2 ∧ ∀ j, j < k → row j ≤ -128) ∨
  (p.2 < k ∧ row p.2 = p.1 ∧ (∀ j, j < k → row j ≤ p.1) ∧
    (∀ j, j < p.2 → row j < p.1) ∧ -128 < p.1)

/-- One scan iteration preserves the invariant. -/
theorem scanStep_inv (row : Nat → Int) (k : Nat) (p : Int × Nat)
    (hp : scanInv row k p) : scanInv row (k + 1) (scanStep row k p) := by
  unfold scanStep
  by_cases hc : row k > p.1
  · rw [if_pos hc]
    refine Or.inr ⟨Nat.lt_succ_self k, rfl, ?_, ?_, ?_⟩
    · intro j hj
      rcases Nat.lt_succ_iff_lt_or_eq.mp hj with hj | hj
      · rcases hp with ⟨_, _, h3⟩ | ⟨_, _, h3, _, _⟩ <;> · have := h3 j hj; omega
      · subst hj; omega
    · intro j hj
      rcases hp with ⟨_, _, h3⟩ | ⟨_, _, h3, _, _⟩ <;> · have := h3 j hj; omega
    · rcases hp with ⟨h1, _, _⟩ | ⟨_, _, _, _, h5⟩ <;> omega
  · rw [if_neg hc]
    rcases hp with ⟨h1, h2, h3⟩ | ⟨h1, h2, h3, h4, h5⟩
    · refine Or.inl ⟨h1, h2, ?_⟩
      intro j hj
      rcases Nat.lt_succ_iff_lt_or_eq.mp hj with hj | hj
      · exact h3 j hj
      · subst hj; omega
    · refine Or.inr ⟨Nat.lt_succ_of_lt h1, h2, ?_, h4, h5⟩
      intro j hj
      rcases Nat.lt_succ_iff_lt_or_eq.mp hj with hj | hj
      · exact h3 j hj
      · subst hj; omega

/-- The full five-step scan satisfies the invariant at k = 5. -/
theorem selectScan_inv (row : Nat → Int) :
    scanInv row 5
      (scanStep row 4 (scanStep row 3 (scanStep row 2 (scanStep row 1
        (scanStep row 0 ((-128 : Int), 2)))))) := by
  have i0 : scanInv row 0 ((-128 : Int), 2) :=
    Or.inl ⟨rfl, rfl, fun j hj => absurd hj (Nat.not_lt_zero j)⟩
  exact scanStep_inv row 4 _ (scanStep_inv row 3 _ (scanStep_inv row 2 _
    (scanStep_inv row 1 _ (scanStep_inv row 0 _ i0))))

/-- C4 amended: under int8_t-range entries the exploitation scan always
returns an action index below 5 attaining the row maximum and is
deterministic (a pure function of the row); when some entry exceeds -128 it
is the first argmax (lowest index among the tied maxima), and when every
entry equals -128 it returns the initial default action 2 instead of 0. -/
theorem C4_selectScan_first_argmax (row : Nat → Int)
    (h : ∀ b, b < NUM_ACTIONS → -128 ≤ row b) :
    selectScan row < NUM_ACTIONS ∧
    (∀ b, b < NUM_ACTIONS → row b ≤ row (selectScan row)) ∧
    ((∃ b, b < NUM_ACTIONS ∧ -128 < row b) → firstArgmax row (selectScan row)) ∧
    ((∀ b, b < NUM_ACTIONS → row b = -128) → selectScan row = 2) := by
  have hinv := selectScan_inv row
  set p := scanStep row 4 (scanStep row 3 (scanStep row 2 (scanStep row 1
    (scanStep row 0 ((-128 : Int), 2))))) with hp
  have hsel : selectScan row = p.2 := rfl
  simp only [NUM_ACTIONS, firstArgmax, hsel]
  rcases hinv with ⟨e1, e2, e3⟩ | ⟨l1, l2, l3, l4, l5⟩
  · refine ⟨by omega, ?_, ?_, fun _ => e2⟩
    · intro b hb
      have hb1 := h b (by simpa [NUM_ACTIONS] using hb)
      have hb2 := e3 b hb
      have h22 := e3 2 (by norm_num)
      have h23 := h 2 (by decide)
      rw [e2]
      omega
    · rintro ⟨b, hb, hbv⟩
      have := e3 b hb
      omega
  · refine ⟨by omega, ?_, ?_, ?_⟩
    · intro b hb
      have := l3 b hb
      omega
    · rintro ⟨b, hb, hbv⟩
      refine ⟨by omega, ?_, ?_⟩
      · intro c hc
        have := l3 c hc
        omega
      · intro c hc
        have := l4 c hc
        omega
    · intro hall
      have := hall p.2 l1
      omega

/-- Witness for C4 amended at the row (0, 0, 0, 5, 0): the scan returns
action 3, the unique argmax. -/
theorem C4_selectScan_first_argmax_witness :
    selectScan (fun b => if b = 3 then (5 : Int) else 0) < NUM_ACTIONS ∧
    (∀ b, b < NUM_ACTIONS → (fun b => if b = 3 then (5 : Int) else 0) b ≤
      (fun b => if b = 3 then (5 : Int) else 0)
        (selectScan (fun b => if b = 3 then (5 : Int) else 0))) ∧
    ((∃ b, b < NUM_ACTIONS ∧ -128 < (fun b => if b = 3 then (5 : Int) else 0) b) →
      firstArgmax (fun b => if b = 3 then (5 : Int) else 0)
        (selectScan (fun b => if b = 3 then (5 : Int) else 0))) ∧
    ((∀ b, b < NUM_ACTIONS → (fun b => if b = 3 then (5 : Int) else 0) b = -128) →
      selectScan (fun b => if b = 3 then (5 : Int) else 0) = 2) :=
  C4_selectScan_first_argmax (fun b => if b = 3 then (5 : Int) else 0)
    (fun b _ => by dsimp only; split_ifs <;> norm_num)

/-- C9: checkEnd evaluates timeout, then success, then lost-too-long, the
first true predicate fixing the reported reason; and the tick stream
[CENTER, CENTER, LOST x 101] at segment 0 ends with reason lost while
tasksComplete stays 0. -/
theorem C9_checkEnd_priority_scenario :
    (∀ e t s l lc, e > 45000 → (checkEnd e t s l lc).1 = some EndReason.timeout) ∧
    (∀ e t s l lc, ¬ e > 45000 → t ≥ 5 → s ≥ 9 →
      (checkEnd e t s l lc).1 = some EndReason.complete) ∧
    (∀ e t s l lc, ¬ e > 45000 → ¬ (t ≥ 5 ∧ s ≥ 9) → l = 0 → lc + 1 > 100 →
      (checkEnd e t s l lc).1 = some EndReason.lost) ∧
    runTicks2 (4 :: 4 :: List.replicate 101 0) 0 0 ⟨0, 0, 0⟩ 0 =
      (some EndReason.lost, ⟨0, 0, 0⟩) := by
  refine ⟨?_, ?_, ?_, by decide⟩
  · intro e t s l lc he
    simp [checkEnd, he]
  · intro e t s l lc he ht hs
    simp [checkEnd, he, ht, hs]
  · intro e t s l lc he hts hl hlc
    simp [checkEnd, he, hts, hl, hlc]

/-- Witness for C9: each predicate branch at a concrete input, plus the
scenario equation. -/
theorem C9_checkEnd_priority_scenario_witness :
    (checkEnd 45001 0 0 4 0).1 = some EndReason.timeout ∧
    (checkEnd 0 5 9 4 0).1 = some EndReason.complete ∧
    (checkEnd 0 0 0 0 100).1 = some EndReason.lost ∧
    runTicks2 (4 :: 4 :: List.replicate 101 0) 0 0 ⟨0, 0, 0⟩ 0 =
      (some EndReason.lost, ⟨0, 0, 0⟩) :=
  ⟨C9_checkEnd_priority_scenario.1 45001 0 0 4 0 (by norm_num),
    C9_checkEnd_priority_scenario.2.1 0 5 9 4 0 (by norm_num) (by norm_num) (by norm_num),
    C9_checkEnd_priority_scenario.2.2.1 0 0 0 0 100 (by norm_num) (by simp) rfl (by norm_num),
    C9_checkEnd_priority_scenario.2.2.2⟩

/-- Running n consecutive LOST ticks at segment 0 from residual lostCount c
with c + n = 101 ends the episode with reason lost (for tick indices whose
elapsed times stay within the 45 s budget). -/
theorem runTicks2_lost_residual (n : Nat) : ∀ c t, 1 ≤ n → c + n = 101 →
    (t + n) * 20 ≤ 45000 →
    (runTicks2 (List.replicate n 0) t 0 ⟨0, 0, 0⟩ c).1 = some EndReason.lost := by
  induction n with
  | zero => intro c t hn; omega
  | succ m ih =>
    intro c t _ hsum ht
    rw [List.replicate_succ]
    have hte : ¬ t * 20 > 45000 := by omega
    by_cases hc : c + 1 > 100
    · have hm : m = 0 := by omega
      subst hm
      have hend : checkEnd (t * 20) 0 0 0 c = (some EndReason.lost, c + 1) := by
        simp [checkEnd, hte, hc]
      simp [runTicks2, checkWaypoints_seg_zero, hend]
    · have hend : checkEnd (t * 20) 0 0 0 c = (none, c + 1) := by
        simp [checkEnd, hte, hc]
      simp only [runTicks2, checkWaypoints_seg_zero, hend]
      exact ih (c + 1) (t + 1) (by omega) (by omega) (by omega)

/-- C10: startEpisode leaves checkEnd's static lostCount untouched, so a new
episode inherits the residual count c; for 1 ≤ c ≤ 100 the lost-too-long
predicate then fires after only 101 - c < 101 consecutive LOST ticks
observed within that episode. -/
theorem C10_lostCount_survives_reset (g : GState) (now c : Nat)
    (hc1 : 1 ≤ c) (hc2 : c ≤ 100) :
    (startEpisode now g).lostCount = g.lostCount ∧
    101 - c < 101 ∧
    (runTicks2 (List.replicate (101 - c) 0) 0 0 ⟨0, 0, 0⟩ c).1 = some EndReason.lost := by
  refine ⟨rfl, by omega, ?_⟩
  exact runTicks2_lost_residual (101 - c) c 0 (by omega) (by omega) (by omega)

/-- Witness for C10 at gState0, whose residual lostCount is 50: the next
episode ends lost after 51 LOST ticks. -/
theorem C10_lostCount_survives_reset_witness :
    (startEpisode 0 gState0).lostCount = gState0.lostCount ∧
    101 - 50 < 101 ∧
    (runTicks2 (List.replicate (101 - 50) 0) 0 0 ⟨0, 0, 0⟩ 50).1 = some EndReason.lost :=
  C10_lostCount_survives_reset gState0 0 50 (by norm_num) (by norm_num)

end HospitalRobot
